import Mathlib

/-!
Verification development for the footiestat ingestion layer.

Shallow embedding of:
* `football/tasks.py` — the Celery batch workers `populate_standings_task`,
  `populate_teams_task` and the per-entity helpers `_process_single_league`,
  `_process_single_country`;
* `football/management/commands/init_teams.py` and `init_standings.py` —
  the queue-aware dispatch loop in `Command.handle` (the two files share the
  same loop body line for line, so one embedding serves both).

Dynamic dict/list API payloads are modelled by the `JVal` type.  Python
operations that can raise are modelled in `Option`: `none` stands for the
exception being raised at that point.  `task.retry(...)` is modelled
faithfully to celery: each call sends one resubmission request (counted in
`retryCalls`) and then raises `Retry`, which is an `Exception` subclass and
is therefore caught by any enclosing generic `except Exception` handler of
the same function; the `raised` flags record whether an exception —
including such a `Retry` — escapes the unit of work to its caller.
-/

namespace FootieStat

/-- Dynamic JSON-like values, mirroring the dict/list payloads returned by
the API client (`get_league_table`, `get_team_details`). -/
inductive JVal where
  | jnull : JVal
  | jbool : Bool → JVal
  | jnum : Int → JVal
  | jstr : String → JVal
  | jarr : List JVal → JVal
  | jobj : List (String × JVal) → JVal

/-- Python truthiness (`if not response: ...`). -/
def JVal.truthy : JVal → Bool
  | .jnull => false
  | .jbool b => b
  | .jnum n => n != 0
  | .jstr s => !(s == "")
  | .jarr xs => !xs.isEmpty
  | .jobj fs => !fs.isEmpty

/-- `isinstance(v, list)`. -/
def JVal.isList : JVal → Bool
  | .jarr _ => true
  | _ => false

/-- Python `v[i]` on a list; `none` models the `IndexError` (or the
`TypeError`/`KeyError` raised when `v` is not a list). -/
def JVal.index : JVal → Nat → Option JVal
  | .jarr xs, i => xs.get? i
  | _, _ => none

/-- Python `v[k]` on a dict; `none` models the `KeyError` (or the `TypeError`
raised when `v` is not a dict — caught by the same generic handlers in the
paths this development examines). -/
def JVal.item : JVal → String → Option JVal
  | .jobj fs, k => fs.lookup k
  | _, _ => none

/-- Python `v.get(k, d)` on a dict; `none` models the `AttributeError` raised
when `v` is not a dict. -/
def JVal.getOr (v : JVal) (k : String) (d : JVal) : Option JVal :=
  match v with
  | .jobj fs => some ((fs.lookup k).getD d)
  | _ => none

/-- Python `v.get(k)` (default `None`). -/
def JVal.pyGet (v : JVal) (k : String) : Option JVal :=
  v.getOr k .jnull

/-! ### Store records (football/models.py, restricted to the fields the sync
logic reads or writes) -/

/-- A `League` row as used by `_process_single_league` (tasks.py): only its
primary key and `season` field are read. -/
structure LeagueRec where
  id : Int
  season : Int
deriving DecidableEq

/-- A `LeagueTableSnapshot` row (football/models.py lines 91-119).  Unique on
`(league, season, team)`.  Dynamic payload fields are kept as `JVal`, the
foreign keys and season as `Int`. -/
structure Snapshot where
  league_id : Int
  season : Int
  rank : JVal
  team_id : Int
  points : JVal
  goals_for : JVal
  goals_against : JVal
  goal_difference : JVal
  matches_played : JVal
  wins : JVal
  draws : JVal
  losses : JVal
  last_five : JVal
  home_stat : JVal
  away_stat : JVal

/-- A `Team` row as constructed by `_process_single_country` (tasks.py
lines 73-80). -/
structure TeamRec where
  id : JVal
  name : JVal
  short_name : JVal
  logo : JVal
  national : JVal

/-! ### tasks.py — `_process_single_league` -/

/-- Outcome of the API fetch call: a returned payload, a raised
`requests.RequestException`, or any other raised exception. -/
inductive FetchOutcome where
  | ok : JVal → FetchOutcome
  | transportError : FetchOutcome
  | otherError : FetchOutcome

/-- Exceptions that can escape the inner body of `_process_single_league`
into its `except` handlers (tasks.py lines 229-235).  `retryExn` is the
celery `Retry` raised by the `task.retry()` call at line 132, after that call
has already sent one retry request. -/
inductive LeagueExn where
  | transport : LeagueExn
  | retryExn : LeagueExn
  | dbError : LeagueExn
  | other : LeagueExn

/-- Observable result of one `_process_single_league` call: how many times
`task.retry` was requested, whether an exception escaped to the caller, and
the snapshot store afterwards. -/
structure ProcResult where
  retryCalls : Nat
  raised : Bool
  store : List Snapshot

/-- Result of the top-level response validation at tasks.py line 130. -/
inductive ValidationResult where
  | invalid : ValidationResult
  | raisedAttr : ValidationResult
  | valid : JVal → ValidationResult

/-- Python `response.get('results') == 0` for the values this system
exchanges (integer result counts). -/
def isZeroResults : JVal → Bool
  | .jnum n => n == 0
  | _ => false

/-- tasks.py line 130:
`if not response or response.get('results') == 0 or not isinstance(response.get('response'), list)`.
Short-circuit evaluation: the truthiness test runs first; each `.get` raises
`AttributeError` on a non-dict payload (`raisedAttr`). -/
def validateStandingsResponse (resp : JVal) : ValidationResult :=
  if !resp.truthy then .invalid
  else
    match resp.pyGet "results" with
    | none => .raisedAttr
    | some res =>
      if isZeroResults res then .invalid
      else
        match resp.pyGet "response" with
        | none => .raisedAttr
        | some rf => if rf.isList then .valid rf else .invalid

/-- tasks.py line 137: `response["response"][0]["league"]["standings"][0]`,
with `except (KeyError, IndexError)`.  `none` models the failure to locate a
standings list (the final value must be iterable as a list of rows). -/
def locateStandings (responseField : JVal) : Option (List JVal) := do
  let r0 ← responseField.index 0
  let lg ← r0.item "league"
  let st ← lg.item "standings"
  let s0 ← st.index 0
  match s0 with
  | .jarr rows => some rows
  | _ => none

/-- tasks.py line 143 / 158: `t['team']['id']`. -/
def teamIdOf (td : JVal) : Option JVal :=
  td.item "team" >>= fun t => t.item "id"

/-- tasks.py line 143: `[t['team']['id'] for t in standings]` — the first
failing access raises out of the comprehension. -/
def extractTeamIds (standings : List JVal) : Option (List JVal) :=
  standings.mapM teamIdOf

/-- tasks.py lines 147-159: `Team.objects.filter(id__in=team_ids)` then
`teams_map.get(team_id)` — a row's team id resolves iff it is an integer id
present in the store. -/
def resolveTeam (stored : List Int) (tid : JVal) : Option Int :=
  match tid with
  | .jnum i => if i ∈ stored then some i else none
  | _ => none

/-- tasks.py lines 168-184: construct one `LeagueTableSnapshot`.  `none`
models the per-row `except Exception: continue` at lines 186-188 (a missing
mandatory field or a non-dict value in a `.get` chain raises). -/
def mkSnapshot (league : LeagueRec) (teamId : Int) (td : JVal) : Option Snapshot :=
  match td.item "rank", td.item "points", td.item "goalsDiff",
      td.getOr "all" (.jobj []), td.getOr "form" (.jstr ""),
      td.getOr "home" (.jobj []), td.getOr "away" (.jobj []) with
  | some rank, some points, some goalsDiff, some allStat, some form, some home,
      some away =>
    match allStat.getOr "goals" (.jobj []), allStat.getOr "played" (.jnum 0),
        allStat.getOr "win" (.jnum 0), allStat.getOr "draw" (.jnum 0),
        allStat.getOr "lose" (.jnum 0) with
    | some goals, some played, some wins, some draws, some losses =>
      match goals.getOr "for" (.jnum 0), goals.getOr "against" (.jnum 0) with
      | some gfor, some gagainst =>
        some { league_id := league.id, season := league.season, rank := rank,
               team_id := teamId, points := points, goals_for := gfor,
               goals_against := gagainst, goal_difference := goalsDiff,
               matches_played := played, wins := wins, draws := draws,
               losses := losses, last_five := form, home_stat := home,
               away_stat := away }
      | _, _ => none
    | _, _, _, _, _ => none
  | _, _, _, _, _, _, _ => none

/-- tasks.py lines 155-188: the `table_list` accumulation loop.  Rows whose
team id does not resolve in the store are skipped with a warning; rows whose
snapshot construction raises are skipped by the per-row handler. -/
def buildTable (league : LeagueRec) (standings : List JVal) (stored : List Int) :
    List Snapshot :=
  standings.filterMap fun td =>
    match teamIdOf td with
    | none => none
    | some tid =>
      match resolveTeam stored tid with
      | none => none
      | some i => mkSnapshot league i td

/-- The filter `league=league, season=league.season` used by both the
`.count()` and `.delete()` calls at tasks.py lines 195-205. -/
def snapshotMatchesDeleteKey (league : LeagueRec) (s : Snapshot) : Bool :=
  s.league_id == league.id && s.season == league.season

/-- tasks.py lines 200-205: delete all snapshots for `(league, league.season)`. -/
def deleteForLeague (league : LeagueRec) (store : List Snapshot) : List Snapshot :=
  store.filter fun s => !(snapshotMatchesDeleteKey league s)

/-- Violation of the `(league, season, team)` uniqueness constraint of
`LeagueTableSnapshot` (models.py line 112). -/
def conflicts (s t : Snapshot) : Bool :=
  s.league_id == t.league_id && s.season == t.season && s.team_id == t.team_id

/-- `bulk_create(..., ignore_conflicts=True)` (tasks.py lines 208-211):
rows are inserted in order, each skipped when it conflicts with a row already
present (including rows of the same batch inserted before it). -/
def bulkCreateIgnoreConflicts (store : List Snapshot) (rows : List Snapshot) :
    List Snapshot :=
  rows.foldl (fun acc r => if acc.any (fun t => conflicts t r) then acc else acc ++ [r])
    store

/-- tasks.py lines 193-211: the atomic delete-then-insert block. -/
def replaceStore (league : LeagueRec) (store : List Snapshot) (rows : List Snapshot) :
    List Snapshot :=
  bulkCreateIgnoreConflicts (deleteForLeague league store) rows

/-- The verification query at tasks.py lines 195-198 / 214-217:
`LeagueTableSnapshot.objects.filter(league=league, season=league.season).count()`. -/
def countFor (league : LeagueRec) (store : List Snapshot) : Nat :=
  (store.filter fun s => snapshotMatchesDeleteKey league s).length

/-- The `try:` body of `_process_single_league` (tasks.py lines 122-227).
A successful return carries the store afterwards; `.error` is an exception
escaping into the outer handlers.  An invalid response calls `task.retry()`
at line 132, which sends one retry request and raises `Retry` (`retryExn`) —
the `return` at line 133 is never reached.  `dbFails` injects a database
exception into the transaction block, which the block's own handler logs and
re-raises (lines 222-225); `transaction.atomic` rolls the partial write back,
so the store is unchanged in that case. -/
def processLeagueBody (retries maxRetries : Nat) (league : LeagueRec)
    (fetch : FetchOutcome) (stored : List Int) (dbFails : Bool)
    (store : List Snapshot) : Except LeagueExn (List Snapshot) :=
  if maxRetries ≤ retries then .ok store
  else
    match fetch with
    | .transportError => .error .transport
    | .otherError => .error .other
    | .ok resp =>
      match validateStandingsResponse resp with
      | .invalid => .error .retryExn
      | .raisedAttr => .error .other
      | .valid rf =>
        match locateStandings rf with
        | none => .ok store
        | some rows =>
          match extractTeamIds rows with
          | none => .error .other
          | some _ =>
            let tbl := buildTable league rows stored
            if tbl.isEmpty then .ok store
            else if dbFails then .error .dbError
            else .ok (replaceStore league store tbl)

/-- `_process_single_league` (tasks.py lines 119-235) with its outer
`except` handlers.  A `requests.RequestException` reaches the handler at
line 229, whose `task.retry(exc=exc)` at line 231 sends one retry request
and raises `Retry`; nothing encloses that handler, so the `Retry` escapes
the function (`raised = true`).  The `Retry` raised at line 132 is an
`Exception` but not a `RequestException`, so it is caught by the generic
handler at line 232, logged, and the function returns normally with the one
request already sent.  Every other exception — including the database error
re-raised at line 225 — is caught by the same generic handler, logged, and
swallowed: no retry, normal return. -/
def _process_single_league (retries maxRetries : Nat) (league : LeagueRec)
    (fetch : FetchOutcome) (stored : List Int) (dbFails : Bool)
    (store : List Snapshot) : ProcResult :=
  match processLeagueBody retries maxRetries league fetch stored dbFails store with
  | .ok st => ⟨0, false, st⟩
  | .error .transport => ⟨1, true, store⟩
  | .error .retryExn => ⟨1, false, store⟩
  | .error .dbError => ⟨0, false, store⟩
  | .error .other => ⟨0, false, store⟩

/-! ### tasks.py — `populate_standings_task` -/

/-- Per-league environment for a batch run: the fetch outcome for that
league, which team ids the store holds, and whether the write raises. -/
structure LeagueEnv where
  fetch : FetchOutcome
  storedTeams : List Int
  dbFails : Bool

/-- How the celery runtime disposes of one task invocation. -/
inductive TaskOutcome where
  | completed : TaskOutcome
  | retryRequested : Nat → TaskOutcome
  | maxRetriesExceeded : TaskOutcome
deriving DecidableEq

/-- `max_retries=3` from the `@shared_task` decorator (tasks.py line 96). -/
def standingsMaxRetries : Nat := 3

/-- `default_retry_delay=5` from the `@shared_task` decorator (tasks.py line 96). -/
def standingsDefaultRetryDelay : Nat := 5

/-- `populate_standings_task` (tasks.py lines 96-116).  `bodyRaises` injects
an exception escaping the `try` body (e.g. the league lookup failing); the
handler then calls `self.retry(exc=exc, countdown=5 * (2 ** self.request.retries))`,
which celery honours while `retries < max_retries` and otherwise turns into
`MaxRetriesExceededError`.  Otherwise each requested league id is resolved
(missing ids are logged and skipped) and `_process_single_league` runs for
each resolved league, threading the snapshot store through. -/
def populate_standings_task (retries : Nat) (leagueMap : Int → Option LeagueRec)
    (env : Int → LeagueEnv) (bodyRaises : Bool) (league_ids : List Int)
    (store : List Snapshot) : TaskOutcome × List Snapshot :=
  if bodyRaises then
    (if retries < standingsMaxRetries then
        .retryRequested (5 * 2 ^ retries)
      else .maxRetriesExceeded, store)
  else
    (.completed,
      league_ids.foldl
        (fun st lid =>
          match leagueMap lid with
          | none => st
          | some lg =>
            let e := env lid
            (_process_single_league retries standingsMaxRetries lg e.fetch
              e.storedTeams e.dbFails st).store)
        store)

/-! ### tasks.py — `_process_single_country` -/

/-- Observable result of one `_process_single_country` call: how many retry
requests were sent, whether an exception (a celery `Retry` included) escaped
to the caller, and the teams constructed for insertion. -/
structure CountryResult where
  retryCalls : Nat
  raised : Bool
  created : List TeamRec

/-- tasks.py lines 67-80: the team-building loop.  Entries whose
`team.get('id')` is falsy are skipped; a non-dict entry raises out of the
loop (`none`), landing in the generic handler. -/
def buildTeams : List JVal → Option (List TeamRec)
  | [] => some []
  | td :: rest => do
    let info ← td.getOr "team" (.jobj [])
    let idv ← info.getOr "id" .jnull
    if !idv.truthy then buildTeams rest
    else do
      let name ← info.getOr "name" .jnull
      let code ← info.getOr "code" .jnull
      let logo ← info.getOr "logo" .jnull
      let national ← info.getOr "national" (.jbool false)
      let ts ← buildTeams rest
      some ({ id := idv, name := name, short_name := code, logo := logo,
              national := national } :: ts)

/-- `_process_single_country` (tasks.py lines 45-91).  An invalid response
calls `task.retry()` at line 64: that call sends one retry request and
raises `Retry`, so the `return` at line 65 is dead code and the `Retry` —
an `Exception` — is caught by the function's own generic handler at line 89,
which calls `task.retry(exc=exc)` again: a second request is sent (the
line-56 guard guarantees the budget allows it) and the `Retry` raised by
that second call escapes the function.  Any other exception raised during
fetch or transform reaches the line-89 handler directly: one retry request,
whose `Retry` escapes. -/
def _process_single_country (retries maxRetries : Nat) (fetch : FetchOutcome) :
    CountryResult :=
  if maxRetries ≤ retries then ⟨0, false, []⟩
  else
    match fetch with
    | .transportError => ⟨1, true, []⟩
    | .otherError => ⟨1, true, []⟩
    | .ok resp =>
      if !resp.truthy then ⟨2, true, []⟩
      else
        match resp.pyGet "response" with
        | none => ⟨1, true, []⟩
        | some rv =>
          match rv with
          | .jarr rows =>
            match buildTeams rows with
            | none => ⟨1, true, []⟩
            | some ts => ⟨0, false, ts⟩
          | _ => ⟨2, true, []⟩

/-! ### init_teams.py / init_standings.py — `Command.handle`

Both commands run the same dispatch loop (init_teams.py lines 53-151,
init_standings.py lines 42-152): partition the key list with
`for i in range(0, len(keys), batch_size): batch = keys[i:i + batch_size]`,
check the redis queue gauge against the ceiling before each submission, and
classify submission failures. -/

/-- The batch partitioning performed by the `for i in range(0, N, B)` loop
with slices `keys[i:i + B]`.  `range` demands a positive step (`B = 0`
raises `ValueError`); the fuel argument of `partitionGo` is the input length,
which suffices for every positive `B`. -/
def partitionGo (B : Nat) : Nat → List α → List (List α)
  | _, [] => []
  | 0, _ :: _ => []
  | fuel + 1, x :: xs => (x :: xs).take B :: partitionGo B fuel ((x :: xs).drop B)

/-- `keys[0:B], keys[B:2B], ...` — the chunks the dispatch loop iterates. -/
def partitionBatches (B : Nat) (keys : List α) : List (List α) :=
  partitionGo B keys.length keys

/-- Outcome of one `task.delay(batch)` submission: accepted, or one of the
exception classes distinguished by the handlers at init_standings.py
lines 124-142 (same lines in init_teams.py). -/
inductive SubmitOutcome where
  | accepted : SubmitOutcome
  | connError : SubmitOutcome
  | timeoutError : SubmitOutcome
  | otherError : SubmitOutcome

/-- Aggregate observables of a dispatch run: which batches were submitted in
order, the success/failure tallies, how many queue-full notices were emitted,
and whether the loop was aborted by a connection failure. -/
structure DispatchResult (α : Type) where
  submitted : List (List α)
  successful : Nat
  failed : Nat
  queueFullNotices : Nat
  aborted : Bool
deriving DecidableEq

/-- The non-dry-run dispatch loop body (init_standings.py lines 71-142,
init_teams.py lines 76-141).  `gauge n` is the value of the `n`-th
`redis.llen` call, `submit n` the outcome of the `n`-th `.delay` call.
When the gauge reaches the ceiling the code sleeps and executes `continue`,
which advances the `for i in range(...)` loop to the next slice — the
throttled batch itself is not re-attempted.  A `ConnectionError` breaks out
of the loop; a `TimeoutError` or any other exception records a failure and
continues with the next batch. -/
def dispatchLoop (maxQueue : Nat) (gauge : Nat → Nat) (submit : Nat → SubmitOutcome) :
    List (List α) → Nat → Nat → DispatchResult α
  | [], _, _ => ⟨[], 0, 0, 0, false⟩
  | b :: bs, g, s =>
    if b.isEmpty then dispatchLoop maxQueue gauge submit bs g s
    else if maxQueue ≤ gauge g then
      let r := dispatchLoop maxQueue gauge submit bs (g + 1) s
      { r with queueFullNotices := r.queueFullNotices + 1 }
    else
      match submit s with
      | .accepted =>
        let r := dispatchLoop maxQueue gauge submit bs (g + 1) (s + 1)
        { r with submitted := b :: r.submitted, successful := r.successful + 1 }
      | .connError => ⟨[], 0, 1, 0, true⟩
      | .timeoutError =>
        let r := dispatchLoop maxQueue gauge submit bs (g + 1) (s + 1)
        { r with failed := r.failed + 1 }
      | .otherError =>
        let r := dispatchLoop maxQueue gauge submit bs (g + 1) (s + 1)
        { r with failed := r.failed + 1 }

/-- `Command.handle` of both commands: chunk the key list, then either report
all batches in dry-run mode without touching the queue, or run the dispatch
loop. -/
def handle (keys : List α) (batchSize maxQueue : Nat) (dryRun : Bool)
    (gauge : Nat → Nat) (submit : Nat → SubmitOutcome) : DispatchResult α :=
  let batches := partitionBatches batchSize keys
  if dryRun then
    ⟨[], (batches.filter fun b => !b.isEmpty).length, 0, 0, false⟩
  else
    dispatchLoop maxQueue gauge submit batches 0 0

/-! ## Lemmas about the batch partitioner -/

theorem partitionGo_nil (B fuel : Nat) : partitionGo B fuel ([] : List α) = [] := by
  cases fuel <;> rfl

theorem partitionGo_join (B : Nat) (hB : 1 ≤ B) :
    ∀ (fuel : Nat) (keys : List α), keys.length ≤ fuel →
      (partitionGo B fuel keys).flatten = keys := by
  intro fuel
  induction fuel with
  | zero =>
    intro keys h
    have : keys = [] := List.length_eq_zero.mp (Nat.le_zero.mp h)
    subst this
    rfl
  | succ n ih =>
    intro keys h
    match keys with
    | [] => rfl
    | x :: xs =>
      have hlen : ((x :: xs).drop B).length ≤ n := by
        simp only [List.length_drop, List.length_cons]
        simp only [List.length_cons] at h
        omega
      simp only [partitionGo, List.flatten_cons, ih _ hlen, List.take_append_drop]

theorem ceil_div_step (N B : Nat) (hN : 1 ≤ N) (hB : 1 ≤ B) :
    (N - B + B - 1) / B + 1 = (N + B - 1) / B := by
  by_cases hle : N ≤ B
  · have h0 : N - B = 0 := by omega
    rw [h0]
    have h1 : (0 + B - 1) / B = 0 := Nat.div_eq_of_lt (by omega)
    have h2 : (N + B - 1) / B = 1 := Nat.div_eq_of_lt_le (by omega) (by omega)
    omega
  · have e1 : N - B + B - 1 = (N - 1 - B) + B := by omega
    have e2 : N + B - 1 = (N - 1) + B := by omega
    have e4 : N - 1 = (N - 1 - B) + B := by omega
    rw [e1, e2, Nat.add_div_right _ (by omega), Nat.add_div_right _ (by omega)]
    conv_rhs => rw [e4]
    rw [Nat.add_div_right _ (by omega)]

theorem partitionGo_length (B : Nat) (hB : 1 ≤ B) :
    ∀ (fuel : Nat) (keys : List α), keys.length ≤ fuel →
      (partitionGo B fuel keys).length = (keys.length + B - 1) / B := by
  intro fuel
  induction fuel with
  | zero =>
    intro keys h
    have : keys = [] := List.length_eq_zero.mp (Nat.le_zero.mp h)
    subst this
    simp only [partitionGo, List.length_nil, Nat.zero_add]
    exact (Nat.div_eq_of_lt (by omega)).symm
  | succ n ih =>
    intro keys h
    match keys with
    | [] =>
      simp only [partitionGo, List.length_nil, Nat.zero_add]
      exact (Nat.div_eq_of_lt (by omega)).symm
    | x :: xs =>
      have hlen : ((x :: xs).drop B).length ≤ n := by
        simp only [List.length_drop, List.length_cons]
        simp only [List.length_cons] at h
        omega
      simp only [partitionGo, List.length_cons, ih _ hlen, List.length_drop]
      exact ceil_div_step (xs.length + 1) B (by omega) hB

theorem partitionGo_ne_nil (B fuel : Nat) (x : α) (xs : List α) :
    partitionGo B (fuel + 1) (x :: xs) ≠ [] := by
  simp [partitionGo]

theorem partitionGo_dropLast (B : Nat) (hB : 1 ≤ B) :
    ∀ (fuel : Nat) (keys : List α), keys.length ≤ fuel →
      ∀ c ∈ (partitionGo B fuel keys).dropLast, c.length = B := by
  intro fuel
  induction fuel with
  | zero =>
    intro keys h
    have : keys = [] := List.length_eq_zero.mp (Nat.le_zero.mp h)
    subst this
    simp [partitionGo]
  | succ n ih =>
    intro keys h c hc
    match keys with
    | [] => simp [partitionGo] at hc
    | x :: xs =>
      simp only [partitionGo] at hc
      by_cases hle : (x :: xs).length ≤ B
      · have hdrop : (x :: xs).drop B = [] := by
          apply List.eq_nil_of_length_eq_zero
          simp only [List.length_drop]
          omega
        rw [hdrop, partitionGo_nil] at hc
        simp at hc
      · have hN : B < (x :: xs).length := by omega
        have hlen : ((x :: xs).drop B).length ≤ n := by
          simp only [List.length_drop, List.length_cons]
          simp only [List.length_cons] at h
          omega
        have hdrop_ne : (x :: xs).drop B ≠ [] := by
          intro habs
          have := congrArg List.length habs
          simp only [List.length_drop, List.length_nil] at this
          omega
        obtain ⟨y, ys, hys⟩ := List.exists_cons_of_ne_nil hdrop_ne
        cases hn : n with
        | zero =>
          rw [hn] at hlen
          rw [hys] at hlen
          simp at hlen
        | succ m =>
          rw [hn, hys] at hc
          simp only [partitionGo, List.dropLast_cons₂, List.mem_cons] at hc
          rcases hc with hc | hc
          · subst hc
            simp only [List.length_take]
            omega
          · have := ih ((x :: xs).drop B) hlen c
            rw [hys, hn] at this
            exact this (by simpa [partitionGo] using hc)

/-! ## Claim C4 -/

/-- C4: for every ordered key list of length N ≥ 0 and every batch size
B ≥ 1, the dispatcher's batch partitioning yields exactly ceil(N/B)
consecutive non-overlapping chunks whose concatenation reconstructs the
original list in order, every chunk except possibly the last has exactly B
elements, and an empty input yields zero chunks; the partitioning is a pure
function of its inputs. -/
theorem partition_batches_spec {α : Type} (keys : List α) (B : Nat) (hB : 1 ≤ B) :
    (partitionBatches B keys).length = (keys.length + B - 1) / B
    ∧ (partitionBatches B keys).flatten = keys
    ∧ (∀ c ∈ (partitionBatches B keys).dropLast, c.length = B)
    ∧ partitionBatches B ([] : List α) = [] := by
  refine ⟨?_, ?_, ?_, rfl⟩
  · exact partitionGo_length B hB keys.length keys le_rfl
  · exact partitionGo_join B hB keys.length keys le_rfl
  · exact partitionGo_dropLast B hB keys.length keys le_rfl

/-- Witness for C4: the spec's own example — 7 keys with batch size 3 give
3 chunks of sizes [3, 3, 1] whose concatenation is the original list. -/
theorem partition_batches_spec_witness :
    (partitionBatches 3 [10, 20, 30, 40, 50, 60, 70]).length = (7 + 3 - 1) / 3
    ∧ (partitionBatches 3 [10, 20, 30, 40, 50, 60, 70]).flatten
        = [10, 20, 30, 40, 50, 60, 70]
    ∧ (∀ c ∈ (partitionBatches 3 [10, 20, 30, 40, 50, 60, 70]).dropLast, c.length = 3)
    ∧ partitionBatches 3 ([] : List Nat) = [] := by
  have h := partition_batches_spec [10, 20, 30, 40, 50, 60, 70] 3 (by decide)
  simpa using h

/-! ## Lemmas about snapshot construction and the replace write -/

theorem mkSnapshot_fields {L : LeagueRec} {i : Int} {td : JVal} {s : Snapshot}
    (h : mkSnapshot L i td = some s) :
    s.league_id = L.id ∧ s.season = L.season ∧ s.team_id = i := by
  unfold mkSnapshot at h
  split at h
  · split at h
    · split at h
      · rw [Option.some.injEq] at h
        subst h
        exact ⟨rfl, rfl, rfl⟩
      · exact absurd h (by simp)
    · exact absurd h (by simp)
  · exact absurd h (by simp)

theorem resolveTeam_some {stored : List Int} {tid : JVal} {i : Int}
    (h : resolveTeam stored tid = some i) : i ∈ stored ∧ tid = .jnum i := by
  cases tid <;> simp [resolveTeam] at h
  case jnum n =>
    obtain ⟨h1, h2⟩ := h
    subst h2
    exact ⟨h1, rfl⟩

theorem mem_buildTable {L : LeagueRec} {rows : List JVal} {stored : List Int}
    {s : Snapshot} :
    s ∈ buildTable L rows stored ↔
      ∃ td ∈ rows, ∃ tid i, teamIdOf td = some tid
        ∧ resolveTeam stored tid = some i ∧ mkSnapshot L i td = some s := by
  simp only [buildTable, List.mem_filterMap]
  constructor
  · rintro ⟨td, htd, hf⟩
    cases e1 : teamIdOf td with
    | none => simp only [e1] at hf; cases hf
    | some tid =>
      simp only [e1] at hf
      cases e2 : resolveTeam stored tid with
      | none => simp only [e2] at hf; cases hf
      | some i =>
        simp only [e2] at hf
        exact ⟨td, htd, tid, i, e1, e2, hf⟩
  · rintro ⟨td, htd, tid, i, h1, h2, h3⟩
    refine ⟨td, htd, ?_⟩
    simp only [h1, h2, h3]

theorem buildTable_team_mem {L : LeagueRec} {rows : List JVal} {stored : List Int}
    {s : Snapshot} (h : s ∈ buildTable L rows stored) : s.team_id ∈ stored := by
  obtain ⟨td, _, tid, i, _, h2, h3⟩ := mem_buildTable.mp h
  obtain ⟨hi, -⟩ := resolveTeam_some h2
  obtain ⟨-, -, ht⟩ := mkSnapshot_fields h3
  rw [ht]
  exact hi

theorem buildTable_key {L : LeagueRec} {rows : List JVal} {stored : List Int}
    {s : Snapshot} (h : s ∈ buildTable L rows stored) :
    snapshotMatchesDeleteKey L s = true := by
  obtain ⟨td, _, tid, i, _, _, h3⟩ := mem_buildTable.mp h
  obtain ⟨h1, h2, -⟩ := mkSnapshot_fields h3
  simp [snapshotMatchesDeleteKey, h1, h2]

theorem conflicts_eq_false_of_team_ne {s t : Snapshot} (h : s.team_id ≠ t.team_id) :
    conflicts s t = false := by
  simp [conflicts, beq_eq_false_iff_ne, h]

theorem conflicts_eq_false_of_key {L : LeagueRec} {s t : Snapshot}
    (hs : snapshotMatchesDeleteKey L s = false)
    (ht : snapshotMatchesDeleteKey L t = true) : conflicts s t = false := by
  simp only [snapshotMatchesDeleteKey, Bool.and_eq_true, beq_iff_eq] at ht
  rcases Bool.eq_false_iff.mp hs with hne
  by_contra hcon
  rw [Bool.not_eq_false] at hcon
  simp only [conflicts, Bool.and_eq_true, beq_iff_eq] at hcon
  apply hne
  simp only [snapshotMatchesDeleteKey, Bool.and_eq_true, beq_iff_eq]
  exact ⟨hcon.1.1.trans ht.1, hcon.1.2.trans ht.2⟩

theorem deleteForLeague_not_key {L : LeagueRec} {store : List Snapshot} :
    ∀ s ∈ deleteForLeague L store, snapshotMatchesDeleteKey L s = false := by
  intro s hs
  rw [deleteForLeague, List.mem_filter] at hs
  simpa using hs.2

theorem bulkCreate_append :
    ∀ (rows acc : List Snapshot),
      (∀ r ∈ rows, ∀ t ∈ acc, conflicts t r = false) →
      (rows.map Snapshot.team_id).Nodup →
      bulkCreateIgnoreConflicts acc rows = acc ++ rows := by
  intro rows
  induction rows with
  | nil => intro acc _ _; simp [bulkCreateIgnoreConflicts]
  | cons r rest ih =>
    intro acc hconf hnd
    have hany : acc.any (fun t => conflicts t r) = false :=
      List.any_eq_false.mpr fun t ht => by
        simp [hconf r (List.mem_cons_self r rest) t ht]
    simp only [List.map_cons, List.nodup_cons] at hnd
    have step : bulkCreateIgnoreConflicts acc (r :: rest)
        = bulkCreateIgnoreConflicts (acc ++ [r]) rest := by
      simp only [bulkCreateIgnoreConflicts, List.foldl_cons, hany, Bool.false_eq_true,
        if_false]
    rw [step, ih (acc ++ [r]) ?_ hnd.2]
    · simp
    · intro r' hr' t ht
      rcases List.mem_append.mp ht with hta | htr
      · exact hconf r' (List.mem_cons_of_mem r hr') t hta
      · have : t = r := List.mem_singleton.mp htr
        subst this
        apply conflicts_eq_false_of_team_ne
        intro heq
        exact hnd.1 (heq ▸ List.mem_map_of_mem Snapshot.team_id hr')

theorem replaceStore_eq_append {L : LeagueRec} {store tbl : List Snapshot}
    (hk : ∀ r ∈ tbl, snapshotMatchesDeleteKey L r = true)
    (hnd : (tbl.map Snapshot.team_id).Nodup) :
    replaceStore L store tbl = deleteForLeague L store ++ tbl := by
  rw [replaceStore]
  apply bulkCreate_append tbl (deleteForLeague L store) ?_ hnd
  intro r hr t ht
  exact conflicts_eq_false_of_key (deleteForLeague_not_key t ht) (hk r hr)

theorem countFor_replaceStore {L : LeagueRec} {store tbl : List Snapshot}
    (hk : ∀ r ∈ tbl, snapshotMatchesDeleteKey L r = true)
    (hnd : (tbl.map Snapshot.team_id).Nodup) :
    countFor L (replaceStore L store tbl) = tbl.length := by
  rw [replaceStore_eq_append hk hnd, countFor, List.filter_append]
  have h1 : (deleteForLeague L store).filter (fun s => snapshotMatchesDeleteKey L s) = [] :=
    List.filter_eq_nil_iff.mpr fun s hs => by
      simp [deleteForLeague_not_key s hs]
  have h2 : tbl.filter (fun s => snapshotMatchesDeleteKey L s) = tbl :=
    List.filter_eq_self.mpr hk
  rw [h1, h2]
  simp

/-! ## Lemmas unfolding `_process_single_league` on its main paths -/

theorem process_league_valid_run {retries maxR : Nat} {L : LeagueRec}
    {resp rf : JVal} {rows tids : List JVal} {stored : List Int} {db : Bool}
    {store : List Snapshot}
    (hr : retries < maxR)
    (hv : validateStandingsResponse resp = .valid rf)
    (hl : locateStandings rf = some rows)
    (he : extractTeamIds rows = some tids) :
    _process_single_league retries maxR L (.ok resp) stored db store =
      if (buildTable L rows stored).isEmpty then ⟨0, false, store⟩
      else if db then ⟨0, false, store⟩
      else ⟨0, false, replaceStore L store (buildTable L rows stored)⟩ := by
  have hnle : ¬ maxR ≤ retries := Nat.not_le.mpr hr
  simp only [_process_single_league, processLeagueBody, hnle, if_false, hv, hl, he]
  by_cases hemp : (buildTable L rows stored).isEmpty
  · simp [hemp]
  · by_cases hdb : db
    · simp [hemp, hdb]
    · simp [hemp, hdb]

theorem process_league_locate_none {retries maxR : Nat} {L : LeagueRec}
    {resp rf : JVal} {stored : List Int} {db : Bool} {store : List Snapshot}
    (hr : retries < maxR)
    (hv : validateStandingsResponse resp = .valid rf)
    (hl : locateStandings rf = none) :
    _process_single_league retries maxR L (.ok resp) stored db store
      = ⟨0, false, store⟩ := by
  have hnle : ¬ maxR ≤ retries := Nat.not_le.mpr hr
  simp only [_process_single_league, processLeagueBody, hnle, if_false, hv, hl]

theorem process_league_invalid {retries maxR : Nat} {L : LeagueRec}
    {resp : JVal} {stored : List Int} {db : Bool} {store : List Snapshot}
    (hr : retries < maxR)
    (hv : validateStandingsResponse resp = .invalid) :
    _process_single_league retries maxR L (.ok resp) stored db store
      = ⟨1, false, store⟩ := by
  have hnle : ¬ maxR ≤ retries := Nat.not_le.mpr hr
  simp only [_process_single_league, processLeagueBody, hnle, if_false, hv]

theorem validate_eq_invalid {resp : JVal}
    (h : resp.truthy = false ∨ resp.pyGet "results" = some (.jnum 0)
        ∨ (∃ rv, resp.pyGet "response" = some rv ∧ rv.isList = false)) :
    validateStandingsResponse resp = .invalid := by
  rcases h with h | h | ⟨rv, hrv, hlist⟩
  · simp [validateStandingsResponse, h]
  · by_cases ht : resp.truthy
    · simp [validateStandingsResponse, ht, h, isZeroResults]
    · simp [validateStandingsResponse, Bool.eq_false_iff.mpr ht]
  · by_cases ht : resp.truthy
    · have hobj : ∃ fs, resp = .jobj fs := by
        cases resp <;> simp [JVal.pyGet, JVal.getOr] at hrv
        exact ⟨_, rfl⟩
      obtain ⟨fs, rfl⟩ := hobj
      have hres : ∃ r, JVal.pyGet (.jobj fs) "results" = some r := by
        simp [JVal.pyGet, JVal.getOr]
      obtain ⟨r, hr⟩ := hres
      by_cases hz : isZeroResults r
      · simp [validateStandingsResponse, ht, hr, hz]
      · simp [validateStandingsResponse, ht, hr, hz, hrv, hlist]
    · simp [validateStandingsResponse, Bool.eq_false_iff.mpr ht]

theorem country_invalid_retry {retries maxR : Nat} {resp : JVal}
    (hr : retries < maxR)
    (h : resp.truthy = false
        ∨ (∃ rv, resp.pyGet "response" = some rv ∧ rv.isList = false)) :
    _process_single_country retries maxR (.ok resp) = ⟨2, true, []⟩ := by
  have hnle : ¬ maxR ≤ retries := Nat.not_le.mpr hr
  rcases h with h | ⟨rv, hrv, hlist⟩
  · simp [_process_single_country, hnle, h]
  · by_cases ht : resp.truthy
    · simp only [_process_single_country, hnle, if_false, ht, Bool.not_true, hrv]
      cases rv <;> simp_all [JVal.isList]
    · simp [_process_single_country, hnle, Bool.eq_false_iff.mpr ht]

/-! ## Concrete sample data used by witnesses and counterexamples -/

/-- A stored league with id 1 and season 2024. -/
def sampleLeague : LeagueRec := ⟨1, 2024⟩

/-- A well-formed standings payload wrapping the given rows, as produced by
`get_league_table` (`response[0].league.standings[0]` is the row list). -/
def standingsResponse (rows : List JVal) : JVal :=
  .jobj [("results", .jnum 1),
         ("response", .jarr [.jobj [("league", .jobj [("standings", .jarr [.jarr rows])])]])]

/-- A valid standings row for team 1 (rank 1, points 30, goalsDiff 10). -/
def sampleRow : JVal :=
  .jobj [("team", .jobj [("id", .jnum 1)]), ("rank", .jnum 1),
         ("points", .jnum 30), ("goalsDiff", .jnum 10)]

/-- A second valid standings row that references the same team 1. -/
def sampleRowDupTeam : JVal :=
  .jobj [("team", .jobj [("id", .jnum 1)]), ("rank", .jnum 2),
         ("points", .jnum 25), ("goalsDiff", .jnum 5)]

/-- A valid standings row for a team id (99) that is absent from the store. -/
def missingTeamRow : JVal :=
  .jobj [("team", .jobj [("id", .jnum 99)]), ("rank", .jnum 2),
         ("points", .jnum 20), ("goalsDiff", .jnum 0)]

/-- The snapshot `mkSnapshot sampleLeague 1 sampleRow` constructs (missing
statistics default to 0, missing form to the empty string). -/
def sampleSnapshot : Snapshot :=
  { league_id := 1, season := 2024, rank := .jnum 1, team_id := 1,
    points := .jnum 30, goals_for := .jnum 0, goals_against := .jnum 0,
    goal_difference := .jnum 10, matches_played := .jnum 0, wins := .jnum 0,
    draws := .jnum 0, losses := .jnum 0, last_five := .jstr "",
    home_stat := .jobj [], away_stat := .jobj [] }

/-! ## Claim C1 -/

/-- C1: the claim says a batch checked while the queue gauge is at or above
the ceiling is re-attempted after the wait, and no batch is ever dropped by
the throttle.  Evaluating the dispatch loop on the spec's own scenario
(7 keys, batch size 5, ceiling 100, gauge reading 100 then 50, submissions
accepted) shows the opposite: the loop emits one queue-full notice, sleeps,
and then advances — only the second batch `[6, 7]` is ever submitted and the
throttled batch `[1, 2, 3, 4, 5]` is dropped, because the `continue` in the
`for i in range(...)` loop moves on to the next slice. -/
theorem dispatch_queue_full_drops_batch :
    handle [1, 2, 3, 4, 5, 6, 7] 5 100 false
        (fun n => if n = 0 then 100 else 50) (fun _ => .accepted)
      = ⟨[[6, 7]], 1, 0, 1, false⟩ := rfl

/-! ## Claim C2 -/

/-- C2: the claim says a non-transport exception in the persistence step is
re-raised and propagates out of the unit of work.  Evaluating
`_process_single_league` on a fully valid run (one valid row for stored
team 1) with the database write raising shows that the exception is
swallowed: zero retry requests, no exception escapes (`raised = false`), the
store is untouched, and the unit returns normally — the `raise` at
tasks.py:225 is caught by the generic `except Exception` handler at line 232.
The second conjunct shows the same run with a healthy database does write
the snapshot, so the input is otherwise live. -/
theorem standings_db_error_swallowed :
    _process_single_league 0 3 sampleLeague (.ok (standingsResponse [sampleRow]))
        [1] true [] = ⟨0, false, []⟩
    ∧ (_process_single_league 0 3 sampleLeague (.ok (standingsResponse [sampleRow]))
        [1] false []).store = [sampleSnapshot] :=
  ⟨rfl, rfl⟩

/-! ## Claim C3 -/

/-- C3 counterexample: a second run whose payload holds two valid rows that
reference the same stored team ends with a stored count of 1, not 2 — the
claim's "stored snapshot count equals the number of valid rows of the second
run" fails as stated, because `bulk_create(..., ignore_conflicts=True)`
collapses rows that collide on the `(league, season, team)` uniqueness key. -/
theorem standings_replace_count_cex :
    (buildTable sampleLeague [sampleRow, sampleRowDupTeam] [1]).length = 2
    ∧ countFor sampleLeague
        (_process_single_league 0 3 sampleLeague
          (.ok (standingsResponse [sampleRow, sampleRowDupTeam])) [1] false
          (_process_single_league 0 3 sampleLeague
            (.ok (standingsResponse [sampleRow])) [1] false []).store).store = 1 :=
  ⟨rfl, rfl⟩

/-- C3 (amended): for every standings sync run that constructs at least one
valid snapshot, the write replaces all previously existing snapshots for the
`(league, league.season)` pair with the newly constructed set, so after a
second run for the same pair the stored snapshot count equals the number of
valid rows of the second run — provided those rows reference pairwise
distinct team ids (rows colliding on the uniqueness key are collapsed by the
insert-if-absent write); moreover every stored snapshot for the pair comes
from the second run.  If zero valid snapshots were constructed, neither the
delete nor the insert is performed. -/
theorem standings_full_replace_semantics
    (retries maxR : Nat) (L : LeagueRec) (resp1 resp2 rf : JVal)
    (rows tids : List JVal) (stored : List Int) (store : List Snapshot)
    (hr : retries < maxR)
    (hv : validateStandingsResponse resp2 = .valid rf)
    (hl : locateStandings rf = some rows)
    (he : extractTeamIds rows = some tids) :
    (buildTable L rows stored ≠ [] →
        ((buildTable L rows stored).map Snapshot.team_id).Nodup →
        countFor L (_process_single_league retries maxR L (.ok resp2) stored false
            (_process_single_league retries maxR L (.ok resp1) stored false
              store).store).store
          = (buildTable L rows stored).length
        ∧ ∀ s ∈ (_process_single_league retries maxR L (.ok resp2) stored false
            (_process_single_league retries maxR L (.ok resp1) stored false
              store).store).store,
            snapshotMatchesDeleteKey L s = true → s ∈ buildTable L rows stored)
    ∧ (buildTable L rows stored = [] →
        (_process_single_league retries maxR L (.ok resp2) stored false
            (_process_single_league retries maxR L (.ok resp1) stored false
              store).store).store
          = (_process_single_league retries maxR L (.ok resp1) stored false
              store).store) := by
  constructor
  · intro hne hnd
    rw [process_league_valid_run hr hv hl he]
    have hemp : (buildTable L rows stored).isEmpty = false := by
      simpa using hne
    simp only [hemp, Bool.false_eq_true, if_false]
    constructor
    · exact countFor_replaceStore (fun r hrr => buildTable_key hrr) hnd
    · intro s hs hkey
      rw [replaceStore_eq_append (fun r hrr => buildTable_key hrr) hnd] at hs
      rcases List.mem_append.mp hs with h | h
      · exact absurd hkey (by simp [deleteForLeague_not_key s h])
      · exact h
  · intro hnil
    rw [process_league_valid_run hr hv hl he]
    simp [hnil]

/-- A valid standings row for the distinct stored team 2. -/
def secondRow : JVal :=
  .jobj [("team", .jobj [("id", .jnum 2)]), ("rank", .jnum 2),
         ("points", .jnum 25), ("goalsDiff", .jnum 5)]

/-- Witness for C3 (amended): running the sync twice for `sampleLeague` — a
one-row first run, then a second run whose two valid rows reference the
distinct stored teams 1 and 2 — leaves exactly the 2 snapshots of the second
run for the pair. -/
theorem standings_full_replace_semantics_witness :
    countFor sampleLeague
        (_process_single_league 0 3 sampleLeague
          (.ok (standingsResponse [sampleRow, secondRow])) [1, 2] false
          (_process_single_league 0 3 sampleLeague
            (.ok (standingsResponse [sampleRow])) [1, 2] false []).store).store = 2 := by
  have h := standings_full_replace_semantics 0 3 sampleLeague
    (standingsResponse [sampleRow]) (standingsResponse [sampleRow, secondRow])
    (.jarr [.jobj [("league", .jobj [("standings",
      .jarr [.jarr [sampleRow, secondRow]])])]])
    [sampleRow, secondRow] [.jnum 1, .jnum 2] [1, 2] []
    (by decide) rfl rfl rfl
  have hempty : (buildTable sampleLeague [sampleRow, secondRow] [1, 2]).isEmpty
      = false := rfl
  have hne : buildTable sampleLeague [sampleRow, secondRow] [1, 2] ≠ [] := by
    intro habs
    rw [habs] at hempty
    exact absurd hempty (by simp)
  have hmap : (buildTable sampleLeague [sampleRow, secondRow] [1, 2]).map
      Snapshot.team_id = [1, 2] := rfl
  have hnd : ((buildTable sampleLeague [sampleRow, secondRow] [1, 2]).map
      Snapshot.team_id).Nodup := by
    rw [hmap]
    decide
  have h2 := (h.1 hne hnd).1
  rw [h2]
  rfl

/-! ## Claim C5 -/

/-- C5: in the standings per-entity sync, when the response passes top-level
validation but the nested standings array cannot be located, the unit logs
the error, issues zero retry requests, and returns normally (store
untouched, no exception escapes) — a no-op success for the retry system. -/
theorem standings_missing_substructure_no_retry (retries maxR : Nat)
    (L : LeagueRec) (resp rf : JVal) (stored : List Int) (db : Bool)
    (store : List Snapshot)
    (hr : retries < maxR)
    (hv : validateStandingsResponse resp = .valid rf)
    (hl : locateStandings rf = none) :
    _process_single_league retries maxR L (.ok resp) stored db store
      = ⟨0, false, store⟩ :=
  process_league_locate_none hr hv hl

/-- Witness for C5: the repository's own malformed-standings test payload
`{'results': 1, 'response': [{'league': {}}]}` yields zero retries and a
normal return. -/
theorem standings_missing_substructure_no_retry_witness :
    _process_single_league 0 3 ⟨7, 2025⟩
        (.ok (.jobj [("results", .jnum 1),
                     ("response", .jarr [.jobj [("league", .jobj [])]])]))
        [] false [] = ⟨0, false, []⟩ :=
  standings_missing_substructure_no_retry 0 3 ⟨7, 2025⟩
    (.jobj [("results", .jnum 1), ("response", .jarr [.jobj [("league", .jobj [])]])])
    (.jarr [.jobj [("league", .jobj [])]]) [] false [] (by decide) rfl rfl

/-! ## Claim C6 -/

/-- C6 counterexample: an absent response in the teams flavor triggers two
retry requests, not the claimed exactly one: celery's `task.retry()` at
tasks.py:64 sends a request and raises `Retry`, which the unit's own
`except Exception` at tasks.py:89 catches and answers with
`task.retry(exc=exc)` — a second request — whose `Retry` then escapes the
unit. -/
theorem country_malformed_retry_cex :
    (_process_single_country 0 3 (.ok .jnull)).retryCalls = 2
    ∧ ¬ (_process_single_country 0 3 (.ok .jnull)).retryCalls = 1 :=
  ⟨rfl, by decide⟩

/-- C6 (amended): in per-entity sync, an absent (falsy) response or a
payload whose `response` field is not a list — and, for the standings flavor
only, additionally a zero-results marker — is classified as a malformed
response; provided the retry budget is not exhausted, the standings flavor
issues exactly one retry request (the `Retry` it raises is caught by the
unit's generic handler and the unit returns normally), while the teams
flavor issues two retry requests — the `Retry` raised by the first is caught
by the unit's own generic handler, which requests a retry again, and that
second `Retry` escapes the unit. -/
theorem malformed_response_retry_policy (retries maxR : Nat) (L : LeagueRec)
    (resp : JVal) (stored : List Int) (db : Bool) (store : List Snapshot)
    (hr : retries < maxR) :
    ((resp.truthy = false
        ∨ (∃ rv, resp.pyGet "response" = some rv ∧ rv.isList = false)) →
      (_process_single_country retries maxR (.ok resp)).retryCalls = 2
      ∧ (_process_single_country retries maxR (.ok resp)).raised = true)
    ∧ ((resp.truthy = false ∨ resp.pyGet "results" = some (.jnum 0)
          ∨ (∃ rv, resp.pyGet "response" = some rv ∧ rv.isList = false)) →
      (_process_single_league retries maxR L (.ok resp) stored db store).retryCalls = 1
      ∧ (_process_single_league retries maxR L (.ok resp) stored db store).raised
          = false) := by
  constructor
  · intro h
    rw [country_invalid_retry hr h]
    exact ⟨rfl, rfl⟩
  · intro h
    rw [process_league_invalid hr (validate_eq_invalid h)]
    exact ⟨rfl, rfl⟩

/-- Witness for C6 (amended): an absent response (`None`) triggers two retry
requests in the teams flavor and exactly one in the standings flavor. -/
theorem malformed_response_retry_policy_witness :
    (_process_single_country 0 3 (.ok .jnull)).raised = true
    ∧ (_process_single_league 0 3 ⟨1, 2024⟩ (.ok .jnull) [] false []).retryCalls
        = 1 := by
  have h := malformed_response_retry_policy 0 3 ⟨1, 2024⟩ .jnull [] false []
    (by decide)
  exact ⟨(h.1 (Or.inl rfl)).2, (h.2 (Or.inl rfl)).1⟩

/-! ## Claim C7 -/

/-- C7 counterexample: a standings row whose team id 1 resolves to a stored
team is nonetheless excluded from the constructed snapshot set, because it
lacks the mandatory `rank`/`points`/`goalsDiff` fields (the per-row
construction handler skips it) — the claim's "every row whose team id
resolves to a stored Team is included" fails as stated. -/
theorem standings_row_included_cex :
    teamIdOf (.jobj [("team", .jobj [("id", .jnum 1)])]) = some (.jnum 1)
    ∧ resolveTeam [1] (.jnum 1) = some 1
    ∧ buildTable sampleLeague [.jobj [("team", .jobj [("id", .jnum 1)])]] [1]
        = [] :=
  ⟨rfl, rfl, rfl⟩

/-- C7 (amended): every standings row referencing a team id absent from the
store is excluded from the constructed snapshot set (every constructed
snapshot's team is a stored team), with zero retry requests and no exception
escaping the unit; and every row whose team id resolves to a stored team and
whose snapshot construction succeeds (mandatory fields present, stat
containers dict-shaped) is included. -/
theorem standings_missing_team_skip (L : LeagueRec) (rows : List JVal)
    (stored : List Int) :
    (∀ s ∈ buildTable L rows stored, s.team_id ∈ stored)
    ∧ (∀ td ∈ rows, ∀ tid i s, teamIdOf td = some tid →
        resolveTeam stored tid = some i → mkSnapshot L i td = some s →
        s ∈ buildTable L rows stored)
    ∧ (∀ retries maxR resp rf tids db store, retries < maxR →
        validateStandingsResponse resp = .valid rf →
        locateStandings rf = some rows →
        extractTeamIds rows = some tids →
        (_process_single_league retries maxR L (.ok resp) stored db store).retryCalls
            = 0
        ∧ (_process_single_league retries maxR L (.ok resp) stored db store).raised
            = false) := by
  refine ⟨?_, ?_, ?_⟩
  · intro s hs
    exact buildTable_team_mem hs
  · intro td htd tid i s h1 h2 h3
    exact mem_buildTable.mpr ⟨td, htd, tid, i, h1, h2, h3⟩
  · intro retries maxR resp rf tids db store hr hv hl he
    rw [process_league_valid_run hr hv hl he]
    by_cases hemp : (buildTable L rows stored).isEmpty <;>
      by_cases hdb : db <;> simp [hemp, hdb]

/-- Witness for C7 (amended): with stored teams `[1]` and a payload holding a
valid row for team 1 and a valid row for the absent team 99, the snapshot for
team 1 is included and every constructed snapshot references a stored team
(so team 99 is excluded). -/
theorem standings_missing_team_skip_witness :
    sampleSnapshot ∈ buildTable sampleLeague [sampleRow, missingTeamRow] [1]
    ∧ (∀ s ∈ buildTable sampleLeague [sampleRow, missingTeamRow] [1],
        s.team_id ∈ [1]) := by
  have h := standings_missing_team_skip sampleLeague [sampleRow, missingTeamRow] [1]
  refine ⟨?_, h.1⟩
  exact h.2.1 sampleRow (List.mem_cons_self _ _) (.jnum 1) 1 sampleSnapshot rfl rfl rfl

/-! ## Claim C8 -/

/-- C8: when the standings batch worker's unit of work raises, the unit is
retried with a countdown of `5 * 2 ^ retries` time units (base delay 5,
doubling with each retry count), bounded by the maximum retry count 3: once
the budget is exhausted the retry turns into `MaxRetriesExceededError`. -/
theorem standings_backoff_policy (retries : Nat) (leagueMap : Int → Option LeagueRec)
    (env : Int → LeagueEnv) (ids : List Int) (store : List Snapshot) :
    (retries < standingsMaxRetries →
        (populate_standings_task retries leagueMap env true ids store).1
          = .retryRequested (standingsDefaultRetryDelay * 2 ^ retries))
    ∧ (standingsMaxRetries ≤ retries →
        (populate_standings_task retries leagueMap env true ids store).1
          = .maxRetriesExceeded)
    ∧ standingsMaxRetries = 3 ∧ standingsDefaultRetryDelay = 5 := by
  refine ⟨?_, ?_, rfl, rfl⟩
  · intro h
    simp [populate_standings_task, h, standingsDefaultRetryDelay]
  · intro h
    simp [populate_standings_task, Nat.not_lt.mpr h]

/-- Witness for C8: at retry count 2 the requested countdown is
`5 * 2 ^ 2 = 20` time units. -/
theorem standings_backoff_policy_witness :
    (populate_standings_task 2 (fun _ => none)
        (fun _ => ⟨.ok .jnull, [], false⟩) true [] []).1
      = .retryRequested 20 := by
  have h := (standings_backoff_policy 2 (fun _ => none)
    (fun _ => ⟨.ok .jnull, [], false⟩) [] []).1 (by decide)
  rw [h]
  rfl

/-! ## Claim C9 -/

/-- C9: during dispatch, a connection-class submission failure increments
the failure counter and aborts the entire remaining dispatch loop (nothing
further is submitted, whatever batches remain), whereas a timeout-class
failure — and any other submission exception — increments the failure
counter and continues to the next batch without retrying the current one. -/
theorem dispatch_failure_classification {α : Type} (maxQueue : Nat)
    (gauge : Nat → Nat) (submit : Nat → SubmitOutcome) (b : List α)
    (bs : List (List α)) (g s : Nat) (hb : b ≠ []) (hq : gauge g < maxQueue) :
    (submit s = .connError →
        dispatchLoop maxQueue gauge submit (b :: bs) g s = ⟨[], 0, 1, 0, true⟩)
    ∧ (submit s = .timeoutError →
        dispatchLoop maxQueue gauge submit (b :: bs) g s
          = { dispatchLoop maxQueue gauge submit bs (g + 1) (s + 1) with
              failed := (dispatchLoop maxQueue gauge submit bs (g + 1) (s + 1)).failed
                + 1 })
    ∧ (submit s = .otherError →
        dispatchLoop maxQueue gauge submit (b :: bs) g s
          = { dispatchLoop maxQueue gauge submit bs (g + 1) (s + 1) with
              failed := (dispatchLoop maxQueue gauge submit bs (g + 1) (s + 1)).failed
                + 1 }) := by
  obtain ⟨x, xs, rfl⟩ := List.exists_cons_of_ne_nil hb
  have hnle : ¬ maxQueue ≤ gauge g := Nat.not_le.mpr hq
  refine ⟨?_, ?_, ?_⟩ <;> intro hs <;>
    simp only [dispatchLoop, List.isEmpty_cons, Bool.false_eq_true, if_false, hnle,
      hs]

/-- Witness for C9: three pending batches and a connection failure on the
first submission — the whole run stops with one failure and nothing
submitted. -/
theorem dispatch_failure_classification_witness :
    dispatchLoop 100 (fun _ => 0) (fun _ => .connError)
        ([1] :: [[2], [3]]) 0 0 = ⟨[], 0, 1, 0, true⟩ :=
  (dispatch_failure_classification 100 (fun _ => 0) (fun _ => .connError)
    [1] [[2], [3]] 0 0 (by simp) (by decide)).1 rfl

/-! ## Claim C10 -/

/-- C10: every snapshot constructed by the standings sync has its season
field set to the owning League record's season and its league reference set
to that league, so it satisfies exactly the
`filter(league=league, season=league.season)` predicate that the atomic
delete of the same transaction uses. -/
theorem snapshot_season_matches_delete_key (L : LeagueRec) (rows : List JVal)
    (stored : List Int) (s : Snapshot) (hs : s ∈ buildTable L rows stored) :
    s.season = L.season ∧ s.league_id = L.id
    ∧ snapshotMatchesDeleteKey L s = true := by
  obtain ⟨td, _, tid, i, _, _, h3⟩ := mem_buildTable.mp hs
  obtain ⟨h1, h2, -⟩ := mkSnapshot_fields h3
  exact ⟨h2, h1, by simp [snapshotMatchesDeleteKey, h1, h2]⟩

/-- Witness for C10: the snapshot built for team 1 of `sampleLeague` carries
season 2024 and league id 1 and matches the delete predicate. -/
theorem snapshot_season_matches_delete_key_witness :
    sampleSnapshot.season = sampleLeague.season
    ∧ sampleSnapshot.league_id = sampleLeague.id
    ∧ snapshotMatchesDeleteKey sampleLeague sampleSnapshot = true := by
  have hmem : sampleSnapshot ∈ buildTable sampleLeague [sampleRow] [1] := by
    have h : buildTable sampleLeague [sampleRow] [1] = [sampleSnapshot] := rfl
    rw [h]
    exact List.mem_singleton.mpr rfl
  exact snapshot_season_matches_delete_key sampleLeague [sampleRow] [1]
    sampleSnapshot hmem

end FootieStat
